import Mathlib

/-!
# midi2ffxiv: MIDI device session manager (`midi-realtime.go`)

A shallow embedding of the methods of `application` defined in
`midi-realtime.go`, and theorems about them.

The `winmm` package (the thin wrappers around the Windows multimedia driver)
is not part of the file; it is taken as a parameter `Winmm`: every driver call
is appended to a log of calls, and the answer of the driver is an arbitrary
function of the log up to and including that call.  This covers every
combination of driver outcomes.

Machine integers: `byte`, `uint32` and `uintptr` values are `Nat`, Go `int`
values are `Int`; conversions and shifts that can wrap are written with an
explicit modulus.
-/

namespace Midi2ffxiv

/-! ## Data model -/

/-- Go `error` values produced by the `winmm` wrappers: `winmm.MidiInError(code)`
and `winmm.MidiOutError(code)`.  A nil error is `none : Option GoError`. -/
inductive GoError where
  | MidiInError (code : Nat)
  | MidiOutError (code : Nat)
  deriving DecidableEq, Repr

/-- The fields of `winmm.MIDIHDR` that `midi-realtime.go` touches.  `LpData` is
the content of the byte array the header points to. -/
structure MIDIHDR where
  LpData : List Nat
  DwBufferLength : Nat
  DwBytesRecorded : Nat
  deriving DecidableEq, Repr

/-- One call into the `winmm` package, with its arguments.  An input pool buffer
`app.sysexBuffer[i]` is passed by pointer; the call records its pool index `i`. -/
inductive OsCall where
  | MidiInGetNumDevs
  | MidiOutGetNumDevs
  | MidiInOpen (uDeviceID hWnd dwInstance fdwOpen : Nat)
  | MidiInPrepareHeader (hMidiIn i : Nat)
  | MidiInAddBuffer (hMidiIn i : Nat)
  | MidiInStart (hMidiIn : Nat)
  | MidiInUnprepareHeader (hMidiIn i : Nat)
  | MidiInClose (hMidiIn : Nat)
  | MidiOutOpen (uDeviceID hWnd dwInstance fdwOpen : Nat)
  | MidiOutShortMsg (hMidiOut dwMsg : Nat)
  | MidiOutPrepareHeader (hMidiOut : Nat) (hdr : MIDIHDR)
  | MidiOutLongMsg (hMidiOut : Nat) (hdr : MIDIHDR)
  | MidiOutUnprepareHeader (hMidiOut : Nat) (hdr : MIDIHDR)
  | MidiOutClose (hMidiOut : Nat)
  deriving DecidableEq, Repr

/-- The `winmm` package as seen by `midi-realtime.go`.  Each field is given the
log of calls up to and including the call being answered:
`status` is the `error` a wrapper returns (`none` is nil), `handle` the handle
returned by `MidiInOpen` / `MidiOutOpen`, `count` the value of
`MidiInGetNumDevs` / `MidiOutGetNumDevs`. -/
structure Winmm where
  status : List OsCall → Option GoError
  handle : List OsCall → Nat
  count : List OsCall → Nat

/-- Windows constant `MMSYSERR_BADDEVICEID` (mmsystem.h), declared in package `winmm`. -/
def MMSYSERR_BADDEVICEID : Nat := 2

/-- Windows constant `CALLBACK_WINDOW` (mmsystem.h), declared in package `winmm`. -/
def CALLBACK_WINDOW : Nat := 0x00010000

/-- Windows constant `MIDI_IO_STATUS` (mmsystem.h), declared in package `winmm`. -/
def MIDI_IO_STATUS : Nat := 0x00000020

/-- Windows constant `CALLBACK_NULL` (mmsystem.h), declared in package `winmm`. -/
def CALLBACK_NULL : Nat := 0x00000000

/-- The fields of the `application` struct used by `midi-realtime.go`.
`sysexBuffer` is the fixed-size array of `*winmm.MIDIHDR` (a nil pointer is
`none`); its length is the pool size. -/
structure application where
  hWnd : Nat
  MidiInDevice : Int
  MidiOutDevice : Int
  hMidiIn : Nat
  hMidiOut : Nat
  sysexBuffer : List (Option MIDIHDR)
  MidiOutInstrument : Nat
  MidiOutTranspose : Int
  bQuitting : Bool
  deriving DecidableEq, Repr

/-- The `midiMessage` struct: only its `Msg []byte` field is used here. -/
structure midiMessage where
  Msg : List Nat
  deriving DecidableEq, Repr

/-- How a call of a method ends: it returns an `error` (nil is `none`), or the
Go runtime panics. -/
inductive Outcome where
  | ret (err : Option GoError)
  | panic
  deriving DecidableEq, Repr

/-! ## Machine arithmetic -/

/-- Go `int` (64 bits on windows/amd64): wrap an integer to the signed range. -/
def goInt (x : Int) : Int := (x + 9223372036854775808) % 18446744073709551616 - 9223372036854775808

/-- Conversion `uint32(x)` of a Go `int`. -/
def uint32 (x : Int) : Nat := (x % 4294967296).toNat

/-- Left shift `x << k` on `uint32`. -/
def shl32 (x k : Nat) : Nat := (x <<< k) % 4294967296

/-- Conversion `byte(x)` of an unsigned integer. -/
def byte (x : Nat) : Nat := x % 256

/-! ## `sendAllNoteOff` -/

/-- The loop of `sendAllNoteOff`, entered with loop variable `i`:
`for ; i <= 0x007bbf; i++ { err := MidiOutShortMsg(hMidiOut, i); if err != nil { return err } }; return nil`. -/
def sendAllNoteOffLoop (os : Winmm) (hMidiOut : Nat) (i : Nat) (log : List OsCall) :
    List OsCall × Option GoError :=
  if i ≤ 0x007bbf then
    let log1 := log ++ [OsCall.MidiOutShortMsg hMidiOut i]
    match os.status log1 with
    | some err => (log1, some err)
    | none => sendAllNoteOffLoop os hMidiOut (i + 1) log1
  else (log, none)
termination_by 0x007bc0 - i
decreasing_by omega

/-- Method `sendAllNoteOff` (lines 251-259). -/
def sendAllNoteOff (os : Winmm) (app : application) (log : List OsCall) :
    application × List OsCall × Option GoError :=
  let r := sendAllNoteOffLoop os app.hMidiOut 0x007bb0 log
  (app, r.1, r.2)

/-! ## Closing devices -/

/-- The loop of `closeMidiInDevice`: `for i := range app.sysexBuffer { _ = MidiInUnprepareHeader(app.hMidiIn, app.sysexBuffer[i]) }`. -/
def closeMidiInDeviceLoop (hMidiIn : Nat) : List Nat → List OsCall → List OsCall
  | [], log => log
  | i :: rest, log => closeMidiInDeviceLoop hMidiIn rest (log ++ [OsCall.MidiInUnprepareHeader hMidiIn i])

/-- Method `closeMidiInDevice` (lines 137-147). -/
def closeMidiInDevice (_os : Winmm) (app : application) (log : List OsCall) :
    application × List OsCall :=
  let app1 := { app with MidiInDevice := -1 }
  if app1.hMidiIn = 0 then (app1, log)
  else
    let log1 := closeMidiInDeviceLoop app1.hMidiIn (List.range app1.sysexBuffer.length) log
    let log2 := log1 ++ [OsCall.MidiInClose app1.hMidiIn]
    ({ app1 with hMidiIn := 0 }, log2)

/-- Method `closeMidiOutDevice` (lines 149-157). -/
def closeMidiOutDevice (os : Winmm) (app : application) (log : List OsCall) :
    application × List OsCall :=
  let app1 := { app with MidiOutDevice := -1 }
  if app1.hMidiOut = 0 then (app1, log)
  else
    let r := sendAllNoteOff os app1 log
    let app2 := r.1
    let log2 := r.2.1 ++ [OsCall.MidiOutClose app2.hMidiOut]
    ({ app2 with hMidiOut := 0 }, log2)

/-! ## Instrument and transpose -/

/-- Method `setMidiOutInstrument` (lines 159-174); `midiInstrument` is a `uint32`. -/
def setMidiOutInstrument (os : Winmm) (app : application) (log : List OsCall)
    (midiInstrument : Nat) : application × List OsCall × Option GoError :=
  let log1 := log ++ [OsCall.MidiOutShortMsg app.hMidiOut
    (0x0000b0 ||| (shl32 midiInstrument 8 &&& 0x7f0000))]
  match os.status log1 with
  | some err => (app, log1, some err)
  | none =>
    let log2 := log1 ++ [OsCall.MidiOutShortMsg app.hMidiOut
      (0x0020b0 ||| (shl32 midiInstrument 1 &&& 0x7f0000))]
    match os.status log2 with
    | some err => (app, log2, some err)
    | none =>
      let log3 := log2 ++ [OsCall.MidiOutShortMsg app.hMidiOut
        (0x00c0 ||| (shl32 midiInstrument 8 &&& 0x7f00))]
      match os.status log3 with
      | some err => (app, log3, some err)
      | none => ({ app with MidiOutInstrument := midiInstrument }, log3, none)

/-- Method `setMidiOutTranspose` (lines 176-178). -/
def setMidiOutTranspose (app : application) (midiOutTranspose : Int) : application :=
  { app with MidiOutTranspose := midiOutTranspose }

/-! ## Opening devices -/

/-- The header built for one pool buffer: `&winmm.MIDIHDR{LpData: &new([512]byte)[0], DwBufferLength: 512}`. -/
def newSysexHeader : MIDIHDR :=
  { LpData := List.replicate 512 0, DwBufferLength := 512, DwBytesRecorded := 0 }

/-- The loop of `openMidiInDevice` (lines 88-103) over the pool indices.  The
third component is `some err` when the loop body executed `return err` (after
closing the device), `none` when the loop ran to completion. -/
def openMidiInDeviceLoop (os : Winmm) (hMidiIn : Nat) :
    List Nat → application → List OsCall → application × List OsCall × Option GoError
  | [], app, log => (app, log, none)
  | i :: rest, app, log =>
    let app1 := { app with sysexBuffer := app.sysexBuffer.set i (some newSysexHeader) }
    let log1 := log ++ [OsCall.MidiInPrepareHeader hMidiIn i]
    match os.status log1 with
    | some err => (app1, log1 ++ [OsCall.MidiInClose hMidiIn], some err)
    | none =>
      let log2 := log1 ++ [OsCall.MidiInAddBuffer hMidiIn i]
      match os.status log2 with
      | some err => (app1, log2 ++ [OsCall.MidiInClose hMidiIn], some err)
      | none => openMidiInDeviceLoop os hMidiIn rest app1 log2

/-- Method `openMidiInDevice` (lines 73-114); `midiInDevice` is a Go `int`. -/
def openMidiInDevice (os : Winmm) (app : application) (log : List OsCall)
    (midiInDevice : Int) : application × List OsCall × Option GoError :=
  let c := closeMidiInDevice os app log
  let app1 := c.1
  let log1 := c.2
  if midiInDevice < 0 then (app1, log1, none)
  else
    let log2 := log1 ++ [OsCall.MidiInGetNumDevs]
    let midiInDeviceCount := os.count log2
    if midiInDevice ≥ goInt (midiInDeviceCount : Int) then
      (app1, log2, some (GoError.MidiInError MMSYSERR_BADDEVICEID))
    else
      let log3 := log2 ++ [OsCall.MidiInOpen (uint32 midiInDevice) app1.hWnd 0
        (CALLBACK_WINDOW ||| MIDI_IO_STATUS)]
      match os.status log3 with
      | some err => (app1, log3, some err)
      | none =>
        let hMidiIn := os.handle log3
        let l := openMidiInDeviceLoop os hMidiIn (List.range app1.sysexBuffer.length) app1 log3
        match l.2.2 with
        | some err => (l.1, l.2.1, some err)
        | none =>
          let app2 := { l.1 with MidiInDevice := midiInDevice, hMidiIn := hMidiIn }
          let log4 := l.2.1 ++ [OsCall.MidiInStart app2.hMidiIn]
          match os.status log4 with
          | some err =>
            let c2 := closeMidiInDevice os app2 log4
            (c2.1, c2.2, some err)
          | none => (app2, log4, none)

/-- Method `openMidiOutDevice` (lines 116-135); `midiOutDevice` is a Go `int`. -/
def openMidiOutDevice (os : Winmm) (app : application) (log : List OsCall)
    (midiOutDevice : Int) : application × List OsCall × Option GoError :=
  let c := closeMidiOutDevice os app log
  let app1 := c.1
  let log1 := c.2
  if midiOutDevice < 0 then (app1, log1, none)
  else
    let log2 := log1 ++ [OsCall.MidiOutGetNumDevs]
    let MidiOutDeviceCount := os.count log2
    if midiOutDevice ≥ goInt (MidiOutDeviceCount : Int) then
      (app1, log2, some (GoError.MidiOutError MMSYSERR_BADDEVICEID))
    else
      let log3 := log2 ++ [OsCall.MidiOutOpen (uint32 midiOutDevice) app1.hWnd 0 CALLBACK_NULL]
      match os.status log3 with
      | some err => (app1, log3, some err)
      | none =>
        let hMidiOut := os.handle log3
        let app2 := { app1 with MidiOutDevice := midiOutDevice, hMidiOut := hMidiOut }
        setMidiOutInstrument os app2 log3 app2.MidiOutInstrument

/-! ## Outbound encoder -/

/-- One `winmm.MidiOutShortMsg(app.hMidiOut, dwMsg)` call whose error is returned. -/
def shortMsg (os : Winmm) (app : application) (log : List OsCall) (dwMsg : Nat) :
    application × List OsCall × Outcome :=
  let log1 := log ++ [OsCall.MidiOutShortMsg app.hMidiOut dwMsg]
  (app, log1, Outcome.ret (os.status log1))

/-- Method `sendMidiOutMessage` (lines 214-249).  In the long-message branch the
slice expression `buffer[:len(note.Msg)]` panics when the message is longer than
the 512-byte array; the deferred `MidiOutUnprepareHeader` still runs. -/
def sendMidiOutMessage (os : Winmm) (app : application) (log : List OsCall)
    (note : midiMessage) : application × List OsCall × Outcome :=
  if app.MidiOutDevice = -1 then (app, log, Outcome.ret none)
  else
    match note.Msg with
    | [b0] => shortMsg os app log b0
    | [b0, b1] => shortMsg os app log (b0 ||| shl32 b1 8)
    | [b0, b1, b2] =>
      if b0 = 0x80 ∨ b0 = 0x90 ∨ b0 = 0xa0 then
        let noteName : Int := goInt ((b1 : Int) + app.MidiOutTranspose)
        if noteName ≥ 0x00 ∨ noteName ≤ 0x7f then
          shortMsg os app log (b0 ||| shl32 (uint32 noteName) 8 ||| shl32 b2 16)
        else (app, log, Outcome.ret none)
      else
        shortMsg os app log (b0 ||| shl32 b1 8 ||| shl32 b2 16)
    | msg =>
      let midiHeader : MIDIHDR :=
        { LpData := List.replicate 512 0, DwBufferLength := 512, DwBytesRecorded := 0 }
      let log1 := log ++ [OsCall.MidiOutPrepareHeader app.hMidiOut midiHeader]
      match os.status log1 with
      | some err => (app, log1, Outcome.ret (some err))
      | none =>
        if 512 < msg.length then
          (app, log1 ++ [OsCall.MidiOutUnprepareHeader app.hMidiOut midiHeader], Outcome.panic)
        else
          let midiHeader2 : MIDIHDR :=
            { LpData := msg ++ List.replicate (512 - msg.length) 0,
              DwBufferLength := 512,
              DwBytesRecorded := msg.length % 4294967296 }
          let log2 := log1 ++ [OsCall.MidiOutLongMsg app.hMidiOut midiHeader2]
          let err := os.status log2
          (app, log2 ++ [OsCall.MidiOutUnprepareHeader app.hMidiOut midiHeader2], Outcome.ret err)

/-! ## Inbound dispatcher -/

/-- The message built in the `MM_MIM_DATA` / `MM_MIM_MOREDATA` branch of
`onMidiInMessage` (line 187): `[]byte{byte(lParam), byte(lParam >> 8), byte(lParam >> 16)}`. -/
def onMidiInMessageShortData (lParam : Nat) : List Nat :=
  [byte lParam, byte (lParam >>> 8), byte (lParam >>> 16)]

/-! ## Session invariant -/

/-- The session invariant: a device handle is non-null iff its device id is `≥ 0`. -/
def SessionInv (app : application) : Prop :=
  (app.hMidiIn ≠ 0 ↔ 0 ≤ app.MidiInDevice) ∧ (app.hMidiOut ≠ 0 ↔ 0 ≤ app.MidiOutDevice)

instance (app : application) : Decidable (SessionInv app) := by
  unfold SessionInv; infer_instance

/-! ## Concrete sessions and drivers used to evaluate the code -/

/-- A driver that accepts every call, reports two devices and hands out handle `7`. -/
def okDriver : Winmm :=
  { status := fun _ => none, handle := fun _ => 7, count := fun _ => 2 }

/-- A session with output device `0` open on handle `7`, no input device, a pool
of two buffers, program `0` and the given transpose offset. -/
def outSession (transpose : Int) : application :=
  { hWnd := 1, MidiInDevice := -1, MidiOutDevice := 0, hMidiIn := 0, hMidiOut := 7,
    sysexBuffer := [none, none], MidiOutInstrument := 0, MidiOutTranspose := transpose,
    bQuitting := false }

/-- A session with no device open and a pool of two buffers. -/
def idleSession : application :=
  { hWnd := 1, MidiInDevice := -1, MidiOutDevice := -1, hMidiIn := 0, hMidiOut := 0,
    sysexBuffer := [none, none], MidiOutInstrument := 0, MidiOutTranspose := 0,
    bQuitting := false }

/-- A driver that rejects every call with `MidiOutError(5)` (`MMSYSERR_INVALHANDLE`). -/
def rejectDriver : Winmm :=
  { status := fun _ => some (GoError.MidiOutError 5), handle := fun _ => 0, count := fun _ => 2 }

/-- A driver that accepts every call except the `MidiOutShortMsg` with word `0x007bb3`
(all-notes-off on channel 3), which it rejects with `MidiOutError(1)`. -/
def channelThreeFailDriver : Winmm :=
  { status := fun log =>
      match log.getLast? with
      | some (OsCall.MidiOutShortMsg _ 0x007bb3) => some (GoError.MidiOutError 1)
      | _ => none,
    handle := fun _ => 7, count := fun _ => 2 }

/-- A driver that accepts every call except `MidiInPrepareHeader` for pool buffer 1,
which it rejects with `MidiInError(7)` (`MMSYSERR_NOMEM`). -/
def prepareFailDriver : Winmm :=
  { status := fun log =>
      match log.getLast? with
      | some (OsCall.MidiInPrepareHeader _ 1) => some (GoError.MidiInError 7)
      | _ => none,
    handle := fun _ => 7, count := fun _ => 2 }

/-- A driver that accepts every call except `MidiInAddBuffer` for pool buffer 0, which
it rejects with `MidiInError(7)` (`MMSYSERR_NOMEM`). -/
def addBufferFailDriver : Winmm :=
  { status := fun log =>
      match log.getLast? with
      | some (OsCall.MidiInAddBuffer _ 0) => some (GoError.MidiInError 7)
      | _ => none,
    handle := fun _ => 7, count := fun _ => 2 }

/-- A driver that accepts every call except `MidiInStart`, which it rejects with
`MidiInError(1)`. -/
def startFailDriver : Winmm :=
  { status := fun log =>
      match log.getLast? with
      | some (OsCall.MidiInStart _) => some (GoError.MidiInError 1)
      | _ => none,
    handle := fun _ => 7, count := fun _ => 2 }

/-- A session with input device 1 open on handle 5 and output device 0 open on handle 7,
a pool of two buffers, program 0 and transpose 0. -/
def bothSession : application :=
  { hWnd := 1, MidiInDevice := 1, MidiOutDevice := 0, hMidiIn := 5, hMidiOut := 7,
    sysexBuffer := [none, none], MidiOutInstrument := 0, MidiOutTranspose := 0,
    bQuitting := false }

/-- Calls that query the number of devices. -/
def isCountQuery : OsCall → Bool
  | OsCall.MidiInGetNumDevs => true
  | OsCall.MidiOutGetNumDevs => true
  | _ => false

/-! ## Specification-side descriptions -/

/-- The sixteen all-notes-off words in channel order: controller 123, value 0, on
channels 0..15, i.e. `0x007BB0 + ch`. -/
def allNoteOffWords (hMidiOut : Nat) : List OsCall :=
  (List.range 16).map (fun ch => OsCall.MidiOutShortMsg hMidiOut (0x007bb0 + ch))

/-- Sending a list of calls in order, stopping at the first one the driver rejects. -/
def sendWords (os : Winmm) : List OsCall → List OsCall → List OsCall × Option GoError
  | [], log => (log, none)
  | c :: cs, log =>
    match os.status (log ++ [c]) with
    | some err => (log ++ [c], some err)
    | none => sendWords os cs (log ++ [c])

/-- Calls that open a device. -/
def isOpenCall : OsCall → Bool
  | OsCall.MidiInOpen _ _ _ _ => true
  | OsCall.MidiOutOpen _ _ _ _ => true
  | _ => false

/-- Calls that unprepare an input pool buffer. -/
def isInUnprepare : OsCall → Bool
  | OsCall.MidiInUnprepareHeader _ _ => true
  | _ => false

/-! ## Arithmetic lemmas -/

theorem goInt_eq_self (x : Int) (h1 : -9223372036854775808 ≤ x) (h2 : x < 9223372036854775808) :
    goInt x = x := by
  unfold goInt
  omega

theorem uint32_eq_toNat (x : Int) (h1 : 0 ≤ x) (h2 : x < 4294967296) : uint32 x = x.toNat := by
  unfold uint32
  rw [Int.emod_eq_of_lt h1 h2]

theorem shl32_eight (x : Nat) (h : x < 256) : shl32 x 8 = 256 * x := by
  unfold shl32
  rw [Nat.shiftLeft_eq]
  omega

theorem shl32_sixteen (x : Nat) (h : x < 256) : shl32 x 16 = 65536 * x := by
  unfold shl32
  rw [Nat.shiftLeft_eq]
  omega

/-- Three bytes packed with `|` and `<<` form the little-endian 24-bit word. -/
theorem pack3_eq_add (b0 b1 b2 : Nat) (h0 : b0 < 256) (h1 : b1 < 256) :
    b0 ||| 256 * b1 ||| 65536 * b2 = 65536 * b2 + (256 * b1 + b0) := by
  have e1 : b0 ||| 256 * b1 = 256 * b1 + b0 := by
    rw [Nat.lor_comm]
    exact (Nat.mul_add_lt_is_or (i := 8) (by simpa using h0) b1).symm
  rw [e1, Nat.lor_comm]
  exact (Nat.mul_add_lt_is_or (i := 16) (b := 256 * b1 + b0) (by simp; omega) b2).symm

theorem pack3_shift (b0 b1 b2 : Nat) (h0 : b0 < 256) (h1 : b1 < 256) (h2 : b2 < 256) :
    b0 ||| shl32 b1 8 ||| shl32 b2 16 = 65536 * b2 + (256 * b1 + b0) := by
  rw [shl32_eight b1 h1, shl32_sixteen b2 h2, pack3_eq_add b0 b1 b2 h0 h1]

theorem pack3_plain (b0 b1 b2 : Nat) (h0 : b0 < 256) (h1 : b1 < 256) :
    b0 ||| (b1 <<< 8) ||| (b2 <<< 16) = 65536 * b2 + (256 * b1 + b0) := by
  rw [Nat.shiftLeft_eq, Nat.shiftLeft_eq]
  have := pack3_eq_add b0 b1 b2 h0 h1
  simpa [Nat.mul_comm] using this

/-! ## Outbound encoder: three-byte messages -/

/-- The three-byte branch always sends: the range test `noteName >= 0x00 || noteName <= 0x7f`
holds for every integer. -/
theorem sendMidiOutMessage_three (os : Winmm) (app : application) (log : List OsCall)
    (b0 b1 b2 : Nat) (hdev : app.MidiOutDevice ≠ -1) :
    sendMidiOutMessage os app log { Msg := [b0, b1, b2] } =
      shortMsg os app log
        (if b0 = 0x80 ∨ b0 = 0x90 ∨ b0 = 0xa0 then
          b0 ||| shl32 (uint32 (goInt ((b1 : Int) + app.MidiOutTranspose))) 8 ||| shl32 b2 16
        else b0 ||| shl32 b1 8 ||| shl32 b2 16) := by
  unfold sendMidiOutMessage
  rw [if_neg hdev]
  by_cases hs : b0 = 0x80 ∨ b0 = 0x90 ∨ b0 = 0xa0
  · have hrange : goInt ((b1 : Int) + app.MidiOutTranspose) ≥ 0x00 ∨
        goInt ((b1 : Int) + app.MidiOutTranspose) ≤ 0x7f := by omega
    simp only [if_pos hs, if_pos hrange]
  · simp only [if_neg hs]

/-- C1: for a three-byte message `[s, n, v]` with `s` one of 0x80, 0x90, 0xA0, a
transpose offset `t` with `0 ≤ n + t ≤ 127` and an output device id other than -1,
`sendMidiOutMessage` appends exactly one `MidiOutShortMsg` call to the log, with the
word `s | ((n + t) << 8) | (v << 16)`, and returns the result of that call. -/
theorem sendMidiOutMessage_note_in_range (os : Winmm) (app : application) (log : List OsCall)
    (s n v : Nat) (hs : s = 0x80 ∨ s = 0x90 ∨ s = 0xa0) (hv : v < 256)
    (hlo : 0 ≤ (n : Int) + app.MidiOutTranspose) (hhi : (n : Int) + app.MidiOutTranspose ≤ 127)
    (hdev : app.MidiOutDevice ≠ -1) :
    sendMidiOutMessage os app log { Msg := [s, n, v] } =
      (app,
       log ++ [OsCall.MidiOutShortMsg app.hMidiOut
          (s ||| (((n : Int) + app.MidiOutTranspose).toNat <<< 8) ||| (v <<< 16))],
       Outcome.ret (os.status (log ++ [OsCall.MidiOutShortMsg app.hMidiOut
          (s ||| (((n : Int) + app.MidiOutTranspose).toNat <<< 8) ||| (v <<< 16))]))) := by
  rw [sendMidiOutMessage_three os app log s n v hdev, if_pos hs]
  have hs256 : s < 256 := by omega
  have hg : goInt ((n : Int) + app.MidiOutTranspose) = (n : Int) + app.MidiOutTranspose :=
    goInt_eq_self _ (by omega) (by omega)
  have hu : uint32 ((n : Int) + app.MidiOutTranspose) = ((n : Int) + app.MidiOutTranspose).toNat :=
    uint32_eq_toNat _ hlo (by omega)
  have hm : ((n : Int) + app.MidiOutTranspose).toNat < 256 := by omega
  rw [hg, hu, pack3_shift s _ v hs256 hm hv, ← pack3_plain s _ v hs256 hm]
  rfl

/-- C1, evaluated: `[0x90, 60, 100]` with transpose +12 sends the word 0x644890,
whose note byte is 72. -/
theorem sendMidiOutMessage_note_in_range_witness :
    sendMidiOutMessage okDriver (outSession 12) [] { Msg := [0x90, 60, 100] } =
      (outSession 12, [OsCall.MidiOutShortMsg 7 0x644890], Outcome.ret none) ∧
    byte (0x644890 >>> 8) = 72 :=
  ⟨sendMidiOutMessage_note_in_range okDriver (outSession 12) [] 0x90 60 100
      (by decide) (by decide) (by decide) (by decide) (by decide),
   by decide⟩

/-- C2, evaluated on the code: `[0x90, 60, 100]` with transpose -128 (note -68, out of
range) on an open output device still reaches the driver; the word sent is 0xFFFFBC90,
whose note byte is the wrapped value 0xBC. -/
theorem sendMidiOutMessage_out_of_range_is_sent :
    sendMidiOutMessage okDriver (outSession (-128)) [] { Msg := [0x90, 60, 100] } =
      (outSession (-128), [OsCall.MidiOutShortMsg 7 0xFFFFBC90], Outcome.ret none) ∧
    (60 : Int) + (outSession (-128)).MidiOutTranspose < 0 ∧
    byte (0xFFFFBC90 >>> 8) = 0xBC := by
  refine ⟨?_, by decide, by decide⟩
  rw [sendMidiOutMessage_three okDriver (outSession (-128)) [] 0x90 60 100 (by decide)]
  decide

/-- The note byte of a packed short-message word: bits 8-15. -/
theorem byte_shift8_pack (b0 b1 b2 : Nat) (h0 : b0 < 256) (h1 : b1 < 256) :
    byte ((65536 * b2 + (256 * b1 + b0)) >>> 8) = b1 := by
  unfold byte
  rw [Nat.shiftRight_eq_div_pow]
  omega

/-- A status byte with a non-zero channel nibble is none of 0x80, 0x90, 0xA0. -/
theorem status_with_channel_ne (s c : Nat) (h1 : 1 ≤ c) (h2 : c ≤ 15)
    (hs : s = 0x80 ||| c ∨ s = 0x90 ||| c ∨ s = 0xa0 ||| c) :
    ¬ (s = 0x80 ∨ s = 0x90 ∨ s = 0xa0) ∧ s < 256 := by
  interval_cases c <;> rcases hs with h | h | h <;> subst h <;> decide

/-- C3, refuted as stated: the note-on `[0x91, 60, 100]` (channel 1) with transpose +12
is sent as the word 0x643C91, whose note byte is 60 and not 72. -/
theorem sendMidiOutMessage_channel_one_not_transposed :
    sendMidiOutMessage okDriver (outSession 12) [] { Msg := [0x91, 60, 100] } =
      (outSession 12, [OsCall.MidiOutShortMsg 7 0x643C91], Outcome.ret none) ∧
    byte (0x643C91 >>> 8) = 60 ∧
    ¬ ∃ w, (sendMidiOutMessage okDriver (outSession 12) [] { Msg := [0x91, 60, 100] }).2.1 =
        [OsCall.MidiOutShortMsg 7 w] ∧ (byte (w >>> 8) : Int) = 60 + 12 := by
  have h : sendMidiOutMessage okDriver (outSession 12) [] { Msg := [0x91, 60, 100] } =
      (outSession 12, [OsCall.MidiOutShortMsg 7 0x643C91], Outcome.ret none) := by
    rw [sendMidiOutMessage_three okDriver (outSession 12) [] 0x91 60 100 (by decide)]
    decide
  refine ⟨h, by decide, ?_⟩
  rintro ⟨w, hw, hb⟩
  rw [h] at hw
  simp only [List.cons.injEq, OsCall.MidiOutShortMsg.injEq, true_and, and_true] at hw
  subst hw
  revert hb
  decide

/-- C3, amended: with an output device open and `0 ≤ n + t ≤ 127`, the word sent for
`[s, n, v]` carries note byte `n + t` when `s` is exactly 0x80, 0x90 or 0xA0
(channel 0); for the same message kinds on a channel `c` in 1..15 the three bytes are
packed unmodified and the word carries note byte `n`. -/
theorem sendMidiOutMessage_transpose_channel_zero_only (os : Winmm) (app : application)
    (log : List OsCall) (s n v c : Nat) (hn : n < 256) (hv : v < 256)
    (hlo : 0 ≤ (n : Int) + app.MidiOutTranspose) (hhi : (n : Int) + app.MidiOutTranspose ≤ 127)
    (hdev : app.MidiOutDevice ≠ -1) :
    ((s = 0x80 ∨ s = 0x90 ∨ s = 0xa0) →
      ∃ w, sendMidiOutMessage os app log { Msg := [s, n, v] } =
          (app, log ++ [OsCall.MidiOutShortMsg app.hMidiOut w],
            Outcome.ret (os.status (log ++ [OsCall.MidiOutShortMsg app.hMidiOut w]))) ∧
        (byte (w >>> 8) : Int) = (n : Int) + app.MidiOutTranspose) ∧
    ((1 ≤ c ∧ c ≤ 15 ∧ (s = 0x80 ||| c ∨ s = 0x90 ||| c ∨ s = 0xa0 ||| c)) →
      ∃ w, sendMidiOutMessage os app log { Msg := [s, n, v] } =
          (app, log ++ [OsCall.MidiOutShortMsg app.hMidiOut w],
            Outcome.ret (os.status (log ++ [OsCall.MidiOutShortMsg app.hMidiOut w]))) ∧
        w = s ||| (n <<< 8) ||| (v <<< 16) ∧ byte (w >>> 8) = n) := by
  constructor
  · intro hs
    have hs256 : s < 256 := by omega
    have hg : goInt ((n : Int) + app.MidiOutTranspose) = (n : Int) + app.MidiOutTranspose :=
      goInt_eq_self _ (by omega) (by omega)
    have hu : uint32 ((n : Int) + app.MidiOutTranspose) =
        ((n : Int) + app.MidiOutTranspose).toNat := uint32_eq_toNat _ hlo (by omega)
    have hm : ((n : Int) + app.MidiOutTranspose).toNat < 256 := by omega
    refine ⟨65536 * v + (256 * ((n : Int) + app.MidiOutTranspose).toNat + s), ?_, ?_⟩
    · rw [sendMidiOutMessage_three os app log s n v hdev, if_pos hs, hg, hu,
        pack3_shift s _ v hs256 hm hv]
      rfl
    · rw [byte_shift8_pack s _ v hs256 hm]
      omega
  · rintro ⟨h1, h2, hs⟩
    obtain ⟨hne, hs256⟩ := status_with_channel_ne s c h1 h2 hs
    refine ⟨65536 * v + (256 * n + s), ?_, ?_, ?_⟩
    · rw [sendMidiOutMessage_three os app log s n v hdev, if_neg hne,
        pack3_shift s n v hs256 hn hv]
      rfl
    · exact (pack3_plain s n v hs256 hn).symm
    · exact byte_shift8_pack s n v hs256 hn

/-- C3 amended, evaluated: `[0x90, 60, 100]` with transpose +12 carries note byte 72, and
`[0x91, 60, 100]` carries note byte 60. -/
theorem sendMidiOutMessage_transpose_channel_zero_only_witness :
    (∃ w, sendMidiOutMessage okDriver (outSession 12) [] { Msg := [0x90, 60, 100] } =
        (outSession 12, [] ++ [OsCall.MidiOutShortMsg 7 w],
          Outcome.ret (okDriver.status ([] ++ [OsCall.MidiOutShortMsg 7 w]))) ∧
      (byte (w >>> 8) : Int) = 72) ∧
    (∃ w, sendMidiOutMessage okDriver (outSession 12) [] { Msg := [0x91, 60, 100] } =
        (outSession 12, [] ++ [OsCall.MidiOutShortMsg 7 w],
          Outcome.ret (okDriver.status ([] ++ [OsCall.MidiOutShortMsg 7 w]))) ∧
      w = 0x91 ||| (60 <<< 8) ||| (100 <<< 16) ∧ byte (w >>> 8) = 60) :=
  ⟨(sendMidiOutMessage_transpose_channel_zero_only okDriver (outSession 12) [] 0x90 60 100 1
      (by decide) (by decide) (by decide) (by decide) (by decide)).1 (by decide),
   (sendMidiOutMessage_transpose_channel_zero_only okDriver (outSession 12) [] 0x91 60 100 1
      (by decide) (by decide) (by decide) (by decide) (by decide)).2 (by decide)⟩

/-- C10: pack/unpack round trip.  For every three-byte message `[b0, b1, b2]`, with
transpose offset 0 and an output device open, `sendMidiOutMessage` makes one
`MidiOutShortMsg` call whose word `w` is below `2^24`, and unpacking `w` as the
short-data branch of `onMidiInMessage` does gives back `[b0, b1, b2]`. -/
theorem sendMidiOutMessage_pack_unpack (os : Winmm) (app : application) (log : List OsCall)
    (b0 b1 b2 : Nat) (h0 : b0 < 256) (h1 : b1 < 256) (h2 : b2 < 256)
    (ht : app.MidiOutTranspose = 0) (hdev : app.MidiOutDevice ≠ -1) :
    ∃ w, sendMidiOutMessage os app log { Msg := [b0, b1, b2] } =
        (app, log ++ [OsCall.MidiOutShortMsg app.hMidiOut w],
          Outcome.ret (os.status (log ++ [OsCall.MidiOutShortMsg app.hMidiOut w]))) ∧
      w < 2 ^ 24 ∧ onMidiInMessageShortData w = [b0, b1, b2] := by
  have hg : goInt ((b1 : Int) + app.MidiOutTranspose) = (b1 : Int) := by
    rw [ht, Int.add_zero]
    exact goInt_eq_self _ (by omega) (by omega)
  have hu : uint32 (b1 : Int) = b1 := by
    rw [uint32_eq_toNat _ (by omega) (by omega)]
    simp
  refine ⟨65536 * b2 + (256 * b1 + b0), ?_, by omega, ?_⟩
  · rw [sendMidiOutMessage_three os app log b0 b1 b2 hdev, hg, hu, ite_self,
      pack3_shift b0 b1 b2 h0 h1 h2]
    rfl
  · unfold onMidiInMessageShortData byte
    rw [Nat.shiftRight_eq_div_pow, Nat.shiftRight_eq_div_pow]
    have e0 : (65536 * b2 + (256 * b1 + b0)) % 256 = b0 := by omega
    have e1 : (65536 * b2 + (256 * b1 + b0)) / 2 ^ 8 % 256 = b1 := by omega
    have e2 : (65536 * b2 + (256 * b1 + b0)) / 2 ^ 16 % 256 = b2 := by omega
    rw [e0, e1, e2]

/-- C10, evaluated: the control change `[0xB0, 7, 100]` and the note-on `[0x90, 60, 100]`
both survive the round trip. -/
theorem sendMidiOutMessage_pack_unpack_witness :
    (∃ w, sendMidiOutMessage okDriver (outSession 0) [] { Msg := [0xB0, 7, 100] } =
        (outSession 0, [] ++ [OsCall.MidiOutShortMsg 7 w],
          Outcome.ret (okDriver.status ([] ++ [OsCall.MidiOutShortMsg 7 w]))) ∧
      w < 2 ^ 24 ∧ onMidiInMessageShortData w = [0xB0, 7, 100]) ∧
    (∃ w, sendMidiOutMessage okDriver (outSession 0) [] { Msg := [0x90, 60, 100] } =
        (outSession 0, [] ++ [OsCall.MidiOutShortMsg 7 w],
          Outcome.ret (okDriver.status ([] ++ [OsCall.MidiOutShortMsg 7 w]))) ∧
      w < 2 ^ 24 ∧ onMidiInMessageShortData w = [0x90, 60, 100]) :=
  ⟨sendMidiOutMessage_pack_unpack okDriver (outSession 0) [] 0xB0 7 100
      (by decide) (by decide) (by decide) rfl (by decide),
   sendMidiOutMessage_pack_unpack okDriver (outSession 0) [] 0x90 60 100
      (by decide) (by decide) (by decide) rfl (by decide)⟩

/-! ## `setMidiOutInstrument` -/

/-- For a program in 0..127 the three masked words reduce to the plain bank-select and
program-change words. -/
theorem instrument_words (p : Nat) (hp : p ≤ 127) :
    0x0000b0 ||| (shl32 p 8 &&& 0x7f0000) = 0x0000b0 ∧
    0x0020b0 ||| (shl32 p 1 &&& 0x7f0000) = 0x0020b0 ∧
    0x00c0 ||| (shl32 p 8 &&& 0x7f00) = 0xc0 ||| (p <<< 8) := by
  interval_cases p <;> decide

/-- C4: for every program `p` in 0..127, when the three driver sends succeed,
`setMidiOutInstrument p` appends exactly three `MidiOutShortMsg` calls, in the order
bank select MSB `0x0000B0 | ((p << 8) & 0x7F0000)`, bank select LSB
`0x0020B0 | ((p << 1) & 0x7F0000)`, program change `0x00C0 | ((p << 8) & 0x7F00)`;
these words are `0x0000B0`, `0x0020B0` and `0xC0 | (p << 8)`; it returns nil and the
recorded program is `p`. -/
theorem setMidiOutInstrument_success (os : Winmm) (app : application) (log : List OsCall)
    (p : Nat) (hp : p ≤ 127)
    (h1 : os.status (log ++ [OsCall.MidiOutShortMsg app.hMidiOut 0x0000b0]) = none)
    (h2 : os.status (log ++ [OsCall.MidiOutShortMsg app.hMidiOut 0x0000b0] ++
      [OsCall.MidiOutShortMsg app.hMidiOut 0x0020b0]) = none)
    (h3 : os.status (log ++ [OsCall.MidiOutShortMsg app.hMidiOut 0x0000b0] ++
      [OsCall.MidiOutShortMsg app.hMidiOut 0x0020b0] ++
      [OsCall.MidiOutShortMsg app.hMidiOut (0xc0 ||| (p <<< 8))]) = none) :
    setMidiOutInstrument os app log p =
      ({ app with MidiOutInstrument := p },
       log ++ [OsCall.MidiOutShortMsg app.hMidiOut 0x0000b0] ++
         [OsCall.MidiOutShortMsg app.hMidiOut 0x0020b0] ++
         [OsCall.MidiOutShortMsg app.hMidiOut (0xc0 ||| (p <<< 8))],
       none) ∧
    (setMidiOutInstrument os app log p).1.MidiOutInstrument = p ∧
    0x0000b0 ||| (shl32 p 8 &&& 0x7f0000) = 0x0000b0 ∧
    0x0020b0 ||| (shl32 p 1 &&& 0x7f0000) = 0x0020b0 ∧
    0x00c0 ||| (shl32 p 8 &&& 0x7f00) = 0xc0 ||| (p <<< 8) := by
  obtain ⟨e1, e2, e3⟩ := instrument_words p hp
  have main : setMidiOutInstrument os app log p =
      ({ app with MidiOutInstrument := p },
       log ++ [OsCall.MidiOutShortMsg app.hMidiOut 0x0000b0] ++
         [OsCall.MidiOutShortMsg app.hMidiOut 0x0020b0] ++
         [OsCall.MidiOutShortMsg app.hMidiOut (0xc0 ||| (p <<< 8))],
       none) := by
    unfold setMidiOutInstrument
    simp only [e1, e2, e3, h1, h2, h3]
  refine ⟨main, ?_, e1, e2, e3⟩
  rw [main]

/-- C4, evaluated at `p = 0, 64, 127` on a driver that accepts every call: the program
change words are 0x00C0, 0x40C0 and 0x7FC0. -/
theorem setMidiOutInstrument_success_witness :
    (setMidiOutInstrument okDriver (outSession 0) [] 0).2.1 =
      [OsCall.MidiOutShortMsg 7 0x0000b0, OsCall.MidiOutShortMsg 7 0x0020b0,
        OsCall.MidiOutShortMsg 7 0x00c0] ∧
    (setMidiOutInstrument okDriver (outSession 0) [] 64).2.1 =
      [OsCall.MidiOutShortMsg 7 0x0000b0, OsCall.MidiOutShortMsg 7 0x0020b0,
        OsCall.MidiOutShortMsg 7 0x40c0] ∧
    (setMidiOutInstrument okDriver (outSession 0) [] 127).2.1 =
      [OsCall.MidiOutShortMsg 7 0x0000b0, OsCall.MidiOutShortMsg 7 0x0020b0,
        OsCall.MidiOutShortMsg 7 0x7fc0] ∧
    (setMidiOutInstrument okDriver (outSession 0) [] 64).1.MidiOutInstrument = 64 ∧
    (setMidiOutInstrument okDriver (outSession 0) [] 64).2.2 = none :=
  ⟨congrArg (fun r => r.2.1)
      (setMidiOutInstrument_success okDriver (outSession 0) [] 0 (by decide) rfl rfl rfl).1,
   congrArg (fun r => r.2.1)
      (setMidiOutInstrument_success okDriver (outSession 0) [] 64 (by decide) rfl rfl rfl).1,
   congrArg (fun r => r.2.1)
      (setMidiOutInstrument_success okDriver (outSession 0) [] 127 (by decide) rfl rfl rfl).1,
   (setMidiOutInstrument_success okDriver (outSession 0) [] 64 (by decide) rfl rfl rfl).2.1,
   congrArg (fun r => r.2.2)
      (setMidiOutInstrument_success okDriver (outSession 0) [] 64 (by decide) rfl rfl rfl).1⟩

/-! ## `sendAllNoteOff` -/

theorem sendWords_all_ok (os : Winmm) (ws : List OsCall) :
    ∀ log : List OsCall, (∀ j, j < ws.length → os.status (log ++ ws.take (j + 1)) = none) →
      sendWords os ws log = (log ++ ws, none) := by
  induction ws with
  | nil => intro log _; simp [sendWords]
  | cons c cs ih =>
    intro log h
    have h0 : os.status (log ++ [c]) = none := by simpa using h 0 (by simp)
    have hrest : ∀ j, j < cs.length → os.status (log ++ [c] ++ cs.take (j + 1)) = none := by
      intro j hj
      have := h (j + 1) (by simpa using hj)
      simpa using this
    simp only [sendWords, h0]
    rw [ih (log ++ [c]) hrest]
    simp

theorem sendWords_first_failure (os : Winmm) (ws : List OsCall) :
    ∀ (log : List OsCall) (k : Nat) (e : GoError), k < ws.length →
      (∀ j, j < k → os.status (log ++ ws.take (j + 1)) = none) →
      os.status (log ++ ws.take (k + 1)) = some e →
      sendWords os ws log = (log ++ ws.take (k + 1), some e) := by
  induction ws with
  | nil => intro log k e hk; simp at hk
  | cons c cs ih =>
    intro log k e hk hpre hfail
    cases k with
    | zero =>
      have h0 : os.status (log ++ [c]) = some e := by simpa using hfail
      simp [sendWords, h0]
    | succ k =>
      have h0 : os.status (log ++ [c]) = none := by simpa using hpre 0 (by omega)
      have hpre2 : ∀ j, j < k → os.status (log ++ [c] ++ cs.take (j + 1)) = none := by
        intro j hj
        have := hpre (j + 1) (by omega)
        simpa using this
      have hfail2 : os.status (log ++ [c] ++ cs.take (k + 1)) = some e := by
        simpa using hfail
      simp only [sendWords, h0]
      rw [ih (log ++ [c]) k e (by simpa using hk) hpre2 hfail2]
      simp

theorem sendWords_log (os : Winmm) (ws : List OsCall) :
    ∀ log : List OsCall, ∃ k, k ≤ ws.length ∧ (ws ≠ [] → 1 ≤ k) ∧
      (sendWords os ws log).1 = log ++ ws.take k ∧
      ((sendWords os ws log).2 = none → k = ws.length) := by
  induction ws with
  | nil => intro log; exact ⟨0, by simp [sendWords]⟩
  | cons c cs ih =>
    intro log
    cases h0 : os.status (log ++ [c]) with
    | some e => exact ⟨1, by simp [sendWords, h0]⟩
    | none =>
      obtain ⟨k, hk, _, hlog, hnone⟩ := ih (log ++ [c])
      refine ⟨k + 1, by simpa using hk, by simp, ?_, ?_⟩
      · simp only [sendWords, h0, hlog]
        simp
      · simp only [sendWords, h0]
        intro h
        simp [hnone h]

theorem sendAllNoteOffLoop_eq_sendWords (os : Winmm) (hMidiOut : Nat) :
    ∀ (n i : Nat) (log : List OsCall), i + n = 0x007bc0 →
      sendAllNoteOffLoop os hMidiOut i log =
        sendWords os ((List.range n).map (fun d => OsCall.MidiOutShortMsg hMidiOut (i + d))) log := by
  intro n
  induction n with
  | zero =>
    intro i log hi
    rw [sendAllNoteOffLoop, if_neg (by omega)]
    simp [sendWords]
  | succ n ih =>
    intro i log hi
    rw [sendAllNoteOffLoop, if_pos (by omega)]
    have hr : (List.range (n + 1)).map (fun d => OsCall.MidiOutShortMsg hMidiOut (i + d)) =
        OsCall.MidiOutShortMsg hMidiOut i ::
          (List.range n).map (fun d => OsCall.MidiOutShortMsg hMidiOut (i + 1 + d)) := by
      rw [List.range_succ_eq_map]
      simp [List.map_map, Function.comp_def, Nat.add_assoc, Nat.add_comm 1]
    rw [hr]
    simp only [sendWords]
    rw [ih (i + 1) (log ++ [OsCall.MidiOutShortMsg hMidiOut i]) (by omega)]

theorem sendAllNoteOff_eq_sendWords (os : Winmm) (app : application) (log : List OsCall) :
    sendAllNoteOff os app log =
      (app, (sendWords os (allNoteOffWords app.hMidiOut) log).1,
        (sendWords os (allNoteOffWords app.hMidiOut) log).2) := by
  unfold sendAllNoteOff allNoteOffWords
  rw [sendAllNoteOffLoop_eq_sendWords os app.hMidiOut 16 0x007bb0 log (by norm_num)]

theorem allNoteOffWords_length (h : Nat) : (allNoteOffWords h).length = 16 := by
  simp [allNoteOffWords]

/-- C9: the `MidiOutShortMsg` calls made by `sendAllNoteOff` are the first `k` of the 16
words `0x007BB0 + ch` (`ch = 0..15`, in channel order) for some `1 ≤ k ≤ 16`; if all
sixteen calls succeed the log grows by exactly the 16 words and nil is returned; if the
call for channel `k` is the first to fail, exactly `k + 1` calls are made and that
failure is returned.  The function is total, so the loop always terminates. -/
theorem sendAllNoteOff_calls (os : Winmm) (app : application) (log : List OsCall) :
    (allNoteOffWords app.hMidiOut =
      [OsCall.MidiOutShortMsg app.hMidiOut 0x007bb0, OsCall.MidiOutShortMsg app.hMidiOut 0x007bb1,
       OsCall.MidiOutShortMsg app.hMidiOut 0x007bb2, OsCall.MidiOutShortMsg app.hMidiOut 0x007bb3,
       OsCall.MidiOutShortMsg app.hMidiOut 0x007bb4, OsCall.MidiOutShortMsg app.hMidiOut 0x007bb5,
       OsCall.MidiOutShortMsg app.hMidiOut 0x007bb6, OsCall.MidiOutShortMsg app.hMidiOut 0x007bb7,
       OsCall.MidiOutShortMsg app.hMidiOut 0x007bb8, OsCall.MidiOutShortMsg app.hMidiOut 0x007bb9,
       OsCall.MidiOutShortMsg app.hMidiOut 0x007bba, OsCall.MidiOutShortMsg app.hMidiOut 0x007bbb,
       OsCall.MidiOutShortMsg app.hMidiOut 0x007bbc, OsCall.MidiOutShortMsg app.hMidiOut 0x007bbd,
       OsCall.MidiOutShortMsg app.hMidiOut 0x007bbe, OsCall.MidiOutShortMsg app.hMidiOut 0x007bbf]) ∧
    (∃ k, 1 ≤ k ∧ k ≤ 16 ∧
      (sendAllNoteOff os app log).2.1 = log ++ (allNoteOffWords app.hMidiOut).take k) ∧
    ((∀ j, j < 16 → os.status (log ++ (allNoteOffWords app.hMidiOut).take (j + 1)) = none) →
      sendAllNoteOff os app log = (app, log ++ allNoteOffWords app.hMidiOut, none)) ∧
    (∀ (k : Nat) (e : GoError), k < 16 →
      (∀ j, j < k → os.status (log ++ (allNoteOffWords app.hMidiOut).take (j + 1)) = none) →
      os.status (log ++ (allNoteOffWords app.hMidiOut).take (k + 1)) = some e →
      sendAllNoteOff os app log =
        (app, log ++ (allNoteOffWords app.hMidiOut).take (k + 1), some e) ∧
      ((allNoteOffWords app.hMidiOut).take (k + 1)).length = k + 1) := by
  refine ⟨rfl, ?_, ?_, ?_⟩
  · obtain ⟨k, hk, hpos, hlog, _⟩ := sendWords_log os (allNoteOffWords app.hMidiOut) log
    rw [allNoteOffWords_length] at hk
    refine ⟨k, hpos (by simp [allNoteOffWords]), hk, ?_⟩
    rw [sendAllNoteOff_eq_sendWords]
    exact hlog
  · intro h
    rw [sendAllNoteOff_eq_sendWords,
      sendWords_all_ok os _ log (by rw [allNoteOffWords_length]; exact h)]
  · intro k e hk hpre hfail
    constructor
    · rw [sendAllNoteOff_eq_sendWords,
        sendWords_first_failure os _ log k e (by rw [allNoteOffWords_length]; exact hk) hpre hfail]
    · rw [List.length_take, allNoteOffWords_length]
      omega

/-- C9, evaluated: on a driver that rejects the call for channel 3, four calls are made
(channels 0..3) and the failure is returned; on a driver that accepts everything all
sixteen calls are made. -/
theorem sendAllNoteOff_calls_witness :
    sendAllNoteOff channelThreeFailDriver (outSession 0) [] =
      (outSession 0,
       [OsCall.MidiOutShortMsg 7 0x007bb0, OsCall.MidiOutShortMsg 7 0x007bb1,
        OsCall.MidiOutShortMsg 7 0x007bb2, OsCall.MidiOutShortMsg 7 0x007bb3],
       some (GoError.MidiOutError 1)) ∧
    sendAllNoteOff okDriver (outSession 0) [] =
      (outSession 0, allNoteOffWords 7, none) :=
  ⟨((sendAllNoteOff_calls channelThreeFailDriver (outSession 0) []).2.2.2 3
      (GoError.MidiOutError 1) (by decide) (by decide) (by decide)).1,
   (sendAllNoteOff_calls okDriver (outSession 0) []).2.2.1 (fun _ _ => rfl)⟩

/-! ## No output device open -/

/-- C6, refuted as stated: on the session with no output device open (device id -1, null
handle) and a driver that rejects calls on the null handle, `sendAllNoteOff` makes one
driver call, `MidiOutShortMsg(0, 0x007bb0)`, and returns its failure; on a driver that
accepts every call it makes sixteen. -/
theorem sendAllNoteOff_no_device_calls_driver :
    idleSession.MidiOutDevice = -1 ∧ idleSession.hMidiOut = 0 ∧
    sendAllNoteOff rejectDriver idleSession [] =
      (idleSession, [OsCall.MidiOutShortMsg 0 0x007bb0], some (GoError.MidiOutError 5)) ∧
    (sendAllNoteOff okDriver idleSession []).2.1.length = 16 ∧
    ¬ ((sendAllNoteOff rejectDriver idleSession []).2.2 = none ∧
        (sendAllNoteOff rejectDriver idleSession []).2.1 = []) := by
  have h1 : sendAllNoteOff rejectDriver idleSession [] =
      (idleSession, [OsCall.MidiOutShortMsg 0 0x007bb0], some (GoError.MidiOutError 5)) := by
    rw [sendAllNoteOff_eq_sendWords]
    rfl
  have h2 : (sendAllNoteOff okDriver idleSession []).2.1.length = 16 := by
    rw [sendAllNoteOff_eq_sendWords]
    rfl
  refine ⟨rfl, rfl, h1, h2, ?_⟩
  rw [h1]
  simp

/-- C6, amended: for every session with no output device open (device id -1, null
handle), `closeMidiOutDevice`, which guards its call of `sendAllNoteOff` by the handle, makes
no driver call and leaves the session unchanged; `sendAllNoteOff` itself has no such
guard: it makes between 1 and 16 `MidiOutShortMsg` calls on the null handle, the first
with word `0x007bb0`, and when it returns nil it has made all sixteen. -/
theorem sendAllNoteOff_no_device (os : Winmm) (app : application) (log : List OsCall)
    (hdev : app.MidiOutDevice = -1) (hh : app.hMidiOut = 0) :
    closeMidiOutDevice os app log = (app, log) ∧
    (∃ k, 1 ≤ k ∧ k ≤ 16 ∧
      (sendAllNoteOff os app log).2.1 = log ++ (allNoteOffWords 0).take k) ∧
    (allNoteOffWords 0).head? = some (OsCall.MidiOutShortMsg 0 0x007bb0) ∧
    ((sendAllNoteOff os app log).2.2 = none →
      (sendAllNoteOff os app log).2.1 = log ++ allNoteOffWords 0) := by
  obtain ⟨k, hk, hpos, hlog, hnone⟩ := sendWords_log os (allNoteOffWords app.hMidiOut) log
  rw [allNoteOffWords_length] at hk hnone
  rw [sendAllNoteOff_eq_sendWords]
  rw [hh] at hlog hnone ⊢
  refine ⟨?_, ⟨k, hpos (by simp [allNoteOffWords]), hk, hlog⟩, rfl, ?_⟩
  · unfold closeMidiOutDevice
    simp only [hh, if_true]
    cases app
    simp_all
  · intro h
    have hk16 := hnone h
    rw [hlog, hk16, List.take_of_length_le (by rw [allNoteOffWords_length])]

/-- C6 amended, evaluated on the idle session. -/
theorem sendAllNoteOff_no_device_witness :
    closeMidiOutDevice rejectDriver idleSession [] = (idleSession, []) ∧
    (∃ k, 1 ≤ k ∧ k ≤ 16 ∧
      (sendAllNoteOff rejectDriver idleSession []).2.1 = [] ++ (allNoteOffWords 0).take k) ∧
    (allNoteOffWords 0).head? = some (OsCall.MidiOutShortMsg 0 0x007bb0) ∧
    ((sendAllNoteOff rejectDriver idleSession []).2.2 = none →
      (sendAllNoteOff rejectDriver idleSession []).2.1 = [] ++ allNoteOffWords 0) :=
  sendAllNoteOff_no_device rejectDriver idleSession [] rfl rfl

/-! ## Closing devices -/

theorem closeMidiInDeviceLoop_eq (h : Nat) (l : List Nat) :
    ∀ log : List OsCall,
      closeMidiInDeviceLoop h l log = log ++ l.map (OsCall.MidiInUnprepareHeader h) := by
  induction l with
  | nil => intro log; simp [closeMidiInDeviceLoop]
  | cons i rest ih => intro log; simp [closeMidiInDeviceLoop, ih]

theorem closeMidiInDevice_fields (os : Winmm) (app : application) (log : List OsCall) :
    (closeMidiInDevice os app log).1.MidiInDevice = -1 ∧
    (closeMidiInDevice os app log).1.hMidiIn = 0 ∧
    (closeMidiInDevice os app log).1.hMidiOut = app.hMidiOut ∧
    (closeMidiInDevice os app log).1.MidiOutDevice = app.MidiOutDevice := by
  unfold closeMidiInDevice
  by_cases h : app.hMidiIn = 0
  · simp [h]
  · simp [h]

theorem closeMidiInDevice_log (os : Winmm) (app : application) (log : List OsCall) :
    ∃ extra, (closeMidiInDevice os app log).2 = log ++ extra ∧
      ∀ c ∈ extra, isOpenCall c = false := by
  unfold closeMidiInDevice
  by_cases h : app.hMidiIn = 0
  · exact ⟨[], by simp [h]⟩
  · refine ⟨(List.range app.sysexBuffer.length).map (OsCall.MidiInUnprepareHeader app.hMidiIn) ++
      [OsCall.MidiInClose app.hMidiIn], by simp [h, closeMidiInDeviceLoop_eq], ?_⟩
    intro c hc
    simp only [List.mem_append, List.mem_map, List.mem_singleton] at hc
    rcases hc with ⟨i, _, rfl⟩ | rfl <;> rfl

theorem closeMidiOutDevice_fields (os : Winmm) (app : application) (log : List OsCall) :
    (closeMidiOutDevice os app log).1.MidiOutDevice = -1 ∧
    (closeMidiOutDevice os app log).1.hMidiOut = 0 ∧
    (closeMidiOutDevice os app log).1.hMidiIn = app.hMidiIn ∧
    (closeMidiOutDevice os app log).1.MidiInDevice = app.MidiInDevice := by
  unfold closeMidiOutDevice
  by_cases h : app.hMidiOut = 0
  · simp [h]
  · simp [h, sendAllNoteOff]

theorem allNoteOffWords_not_open (h : Nat) : ∀ c ∈ allNoteOffWords h, isOpenCall c = false := by
  intro c hc
  simp only [allNoteOffWords, List.mem_map] at hc
  obtain ⟨i, _, rfl⟩ := hc
  rfl

theorem closeMidiOutDevice_log (os : Winmm) (app : application) (log : List OsCall) :
    ∃ extra, (closeMidiOutDevice os app log).2 = log ++ extra ∧
      ∀ c ∈ extra, isOpenCall c = false := by
  unfold closeMidiOutDevice
  by_cases h : app.hMidiOut = 0
  · exact ⟨[], by simp [h]⟩
  · obtain ⟨k, _, _, hlog, _⟩ := sendWords_log os (allNoteOffWords app.hMidiOut) log
    refine ⟨(allNoteOffWords app.hMidiOut).take k ++ [OsCall.MidiOutClose app.hMidiOut], ?_, ?_⟩
    · simp [h, sendAllNoteOff_eq_sendWords, hlog]
    · intro c hc
      simp only [List.mem_append, List.mem_singleton] at hc
      rcases hc with hc | rfl
      · exact allNoteOffWords_not_open _ c (List.mem_of_mem_take hc)
      · rfl

/-! ## Device index validation -/

/-- C5, refuted as stated: with two devices present, opening index -1 does not fail;
`openMidiInDevice` and `openMidiOutDevice` both return nil. -/
theorem open_negative_index_returns_nil :
    ¬ (0 ≤ (-1 : Int) ∧ (-1 : Int) < 2) ∧
    openMidiInDevice okDriver idleSession [] (-1) = (idleSession, [], none) ∧
    openMidiOutDevice okDriver idleSession [] (-1) = (idleSession, [], none) ∧
    (openMidiInDevice okDriver idleSession [] (-1)).2.2 ≠
      some (GoError.MidiInError MMSYSERR_BADDEVICEID) ∧
    (openMidiOutDevice okDriver idleSession [] (-1)).2.2 ≠
      some (GoError.MidiOutError MMSYSERR_BADDEVICEID) := by
  refine ⟨by decide, rfl, rfl, ?_, ?_⟩
  · show (none : Option GoError) ≠ _
    simp
  · show (none : Option GoError) ≠ _
    simp

/-- The effect of `closeMidiInDevice`, spelled out: the device id becomes -1 and the
handle null; when a handle was held, every pool buffer is unprepared in index order and
the device is closed. -/
theorem closeMidiInDevice_eq (os : Winmm) (app : application) (log : List OsCall) :
    closeMidiInDevice os app log =
      ({ app with MidiInDevice := -1, hMidiIn := 0 },
       if app.hMidiIn = 0 then log
       else log ++ (List.range app.sysexBuffer.length).map
          (OsCall.MidiInUnprepareHeader app.hMidiIn) ++ [OsCall.MidiInClose app.hMidiIn]) := by
  unfold closeMidiInDevice
  by_cases h : app.hMidiIn = 0
  · simp only [h, if_true]
  · simp only [h, if_false, closeMidiInDeviceLoop_eq]

/-- The effect of `closeMidiOutDevice`, spelled out: the device id becomes -1 and the
handle null; when a handle was held, `sendAllNoteOff` runs and the device is closed. -/
theorem closeMidiOutDevice_eq (os : Winmm) (app : application) (log : List OsCall) :
    closeMidiOutDevice os app log =
      ({ app with MidiOutDevice := -1, hMidiOut := 0 },
       if app.hMidiOut = 0 then log
       else (sendAllNoteOff os { app with MidiOutDevice := -1 } log).2.1 ++
          [OsCall.MidiOutClose app.hMidiOut]) := by
  unfold closeMidiOutDevice
  by_cases h : app.hMidiOut = 0
  · simp only [h, if_true]
  · simp only [h, if_false, sendAllNoteOff]

theorem closeMidiInDevice_quiet (os : Winmm) (app : application) (log : List OsCall) :
    ∃ extra, (closeMidiInDevice os app log).2 = log ++ extra ∧
      ∀ c ∈ extra, isOpenCall c = false ∧ isCountQuery c = false := by
  rw [closeMidiInDevice_eq]
  by_cases h : app.hMidiIn = 0
  · exact ⟨[], by simp [h]⟩
  · refine ⟨(List.range app.sysexBuffer.length).map (OsCall.MidiInUnprepareHeader app.hMidiIn) ++
      [OsCall.MidiInClose app.hMidiIn], by simp [h], ?_⟩
    intro c hc
    simp only [List.mem_append, List.mem_map, List.mem_singleton] at hc
    rcases hc with ⟨i, _, rfl⟩ | rfl <;> exact ⟨rfl, rfl⟩

theorem allNoteOffWords_not_count (h : Nat) :
    ∀ c ∈ allNoteOffWords h, isCountQuery c = false := by
  intro c hc
  simp only [allNoteOffWords, List.mem_map] at hc
  obtain ⟨i, _, rfl⟩ := hc
  rfl

theorem closeMidiOutDevice_quiet (os : Winmm) (app : application) (log : List OsCall) :
    ∃ extra, (closeMidiOutDevice os app log).2 = log ++ extra ∧
      ∀ c ∈ extra, isOpenCall c = false ∧ isCountQuery c = false := by
  obtain ⟨extra, hlog, hno⟩ := closeMidiOutDevice_log os app log
  refine ⟨extra, hlog, ?_⟩
  have hq : ∀ c ∈ extra, isCountQuery c = false := by
    by_cases h : app.hMidiOut = 0
    · have he : extra = [] := by
        have h2 : (closeMidiOutDevice os app log).2 = log := by
          rw [closeMidiOutDevice_eq]
          simp [h]
        rw [h2] at hlog
        simpa using hlog
      rw [he]
      simp
    · obtain ⟨k, _, _, hk, _⟩ := sendWords_log os (allNoteOffWords app.hMidiOut) log
      have h2 : (closeMidiOutDevice os app log).2 =
          log ++ ((allNoteOffWords app.hMidiOut).take k ++ [OsCall.MidiOutClose app.hMidiOut]) := by
        rw [closeMidiOutDevice_eq]
        simp [h, sendAllNoteOff_eq_sendWords, hk]
      rw [h2] at hlog
      have he : extra = (allNoteOffWords app.hMidiOut).take k ++
          [OsCall.MidiOutClose app.hMidiOut] := (List.append_cancel_left hlog).symm
      rw [he]
      intro c hc
      simp only [List.mem_append, List.mem_singleton] at hc
      rcases hc with hc | rfl
      · exact allNoteOffWords_not_count _ c (List.mem_of_mem_take hc)
      · rfl
  exact fun c hc => ⟨hno c hc, hq c hc⟩

/-- C5, amended: for every device count `N` reported by the driver and every
`deviceIndex ≥ N`, `openMidiInDevice` and `openMidiOutDevice` each fail with the
invalid-device-id error (`MMSYSERR_BADDEVICEID`) and make no device-open call; the
session they leave is the closed one and the log is that of the close followed by the
device-count query.  For every negative `deviceIndex` they close the current session
(device id -1, null handle; an open input device has every pool buffer unprepared and is
closed, an open output device gets the all-notes-off burst and is closed) and return nil,
with no device-count query and no device-open call. -/
theorem open_device_index_check (os : Winmm) (app : application) (log : List OsCall)
    (d : Int) :
    (d < 0 →
      openMidiInDevice os app log d =
        ((closeMidiInDevice os app log).1, (closeMidiInDevice os app log).2, none) ∧
      openMidiOutDevice os app log d =
        ((closeMidiOutDevice os app log).1, (closeMidiOutDevice os app log).2, none) ∧
      (∃ extra, (openMidiInDevice os app log d).2.1 = log ++ extra ∧
        ∀ c ∈ extra, isOpenCall c = false) ∧
      (∃ extra, (openMidiOutDevice os app log d).2.1 = log ++ extra ∧
        ∀ c ∈ extra, isOpenCall c = false) ∧
      openMidiInDevice os app log d =
        ({ app with MidiInDevice := -1, hMidiIn := 0 },
         (if app.hMidiIn = 0 then log
          else log ++ (List.range app.sysexBuffer.length).map
            (OsCall.MidiInUnprepareHeader app.hMidiIn) ++ [OsCall.MidiInClose app.hMidiIn]),
         none) ∧
      openMidiOutDevice os app log d =
        ({ app with MidiOutDevice := -1, hMidiOut := 0 },
         (if app.hMidiOut = 0 then log
          else (sendAllNoteOff os { app with MidiOutDevice := -1 } log).2.1 ++
            [OsCall.MidiOutClose app.hMidiOut]),
         none) ∧
      (∃ extra, (openMidiInDevice os app log d).2.1 = log ++ extra ∧
        ∀ c ∈ extra, isOpenCall c = false ∧ isCountQuery c = false) ∧
      (∃ extra, (openMidiOutDevice os app log d).2.1 = log ++ extra ∧
        ∀ c ∈ extra, isOpenCall c = false ∧ isCountQuery c = false)) ∧
    (∀ N : Nat, N < 4294967296 →
      os.count ((closeMidiInDevice os app log).2 ++ [OsCall.MidiInGetNumDevs]) = N →
      (N : Int) ≤ d →
      (openMidiInDevice os app log d).2.2 = some (GoError.MidiInError MMSYSERR_BADDEVICEID) ∧
      (∃ extra, (openMidiInDevice os app log d).2.1 = log ++ extra ∧
        ∀ c ∈ extra, isOpenCall c = false) ∧
      (openMidiInDevice os app log d).1 = { app with MidiInDevice := -1, hMidiIn := 0 } ∧
      (openMidiInDevice os app log d).2.1 =
        (closeMidiInDevice os app log).2 ++ [OsCall.MidiInGetNumDevs]) ∧
    (∀ N : Nat, N < 4294967296 →
      os.count ((closeMidiOutDevice os app log).2 ++ [OsCall.MidiOutGetNumDevs]) = N →
      (N : Int) ≤ d →
      (openMidiOutDevice os app log d).2.2 = some (GoError.MidiOutError MMSYSERR_BADDEVICEID) ∧
      (∃ extra, (openMidiOutDevice os app log d).2.1 = log ++ extra ∧
        ∀ c ∈ extra, isOpenCall c = false) ∧
      (openMidiOutDevice os app log d).1 = { app with MidiOutDevice := -1, hMidiOut := 0 } ∧
      (openMidiOutDevice os app log d).2.1 =
        (closeMidiOutDevice os app log).2 ++ [OsCall.MidiOutGetNumDevs]) := by
  refine ⟨?_, ?_, ?_⟩
  · intro hd
    have hin : openMidiInDevice os app log d =
        ((closeMidiInDevice os app log).1, (closeMidiInDevice os app log).2, none) := by
      unfold openMidiInDevice
      simp only [if_pos hd]
    have hout : openMidiOutDevice os app log d =
        ((closeMidiOutDevice os app log).1, (closeMidiOutDevice os app log).2, none) := by
      unfold openMidiOutDevice
      simp only [if_pos hd]
    refine ⟨hin, hout, ?_, ?_, ?_, ?_, ?_, ?_⟩
    · rw [hin]
      exact closeMidiInDevice_log os app log
    · rw [hout]
      exact closeMidiOutDevice_log os app log
    · rw [hin, closeMidiInDevice_eq]
    · rw [hout, closeMidiOutDevice_eq]
    · rw [hin]
      exact closeMidiInDevice_quiet os app log
    · rw [hout]
      exact closeMidiOutDevice_quiet os app log
  · intro N hN hcount hle
    have hg : goInt (N : Int) = (N : Int) := goInt_eq_self _ (by omega) (by omega)
    have hres : openMidiInDevice os app log d =
        ((closeMidiInDevice os app log).1,
          (closeMidiInDevice os app log).2 ++ [OsCall.MidiInGetNumDevs],
          some (GoError.MidiInError MMSYSERR_BADDEVICEID)) := by
      unfold openMidiInDevice
      have hnn : ¬ d < 0 := by omega
      simp only [if_neg hnn, hcount, hg, ge_iff_le, if_pos hle]
    rw [hres]
    refine ⟨rfl, ?_, by rw [closeMidiInDevice_eq], rfl⟩
    obtain ⟨extra, hlog, hno⟩ := closeMidiInDevice_log os app log
    refine ⟨extra ++ [OsCall.MidiInGetNumDevs], by simp [hlog], ?_⟩
    intro c hc
    simp only [List.mem_append, List.mem_singleton] at hc
    rcases hc with hc | rfl
    · exact hno c hc
    · rfl
  · intro N hN hcount hle
    have hg : goInt (N : Int) = (N : Int) := goInt_eq_self _ (by omega) (by omega)
    have hres : openMidiOutDevice os app log d =
        ((closeMidiOutDevice os app log).1,
          (closeMidiOutDevice os app log).2 ++ [OsCall.MidiOutGetNumDevs],
          some (GoError.MidiOutError MMSYSERR_BADDEVICEID)) := by
      unfold openMidiOutDevice
      have hnn : ¬ d < 0 := by omega
      simp only [if_neg hnn, hcount, hg, ge_iff_le, if_pos hle]
    rw [hres]
    refine ⟨rfl, ?_, by rw [closeMidiOutDevice_eq], rfl⟩
    obtain ⟨extra, hlog, hno⟩ := closeMidiOutDevice_log os app log
    refine ⟨extra ++ [OsCall.MidiOutGetNumDevs], by simp [hlog], ?_⟩
    intro c hc
    simp only [List.mem_append, List.mem_singleton] at hc
    rcases hc with hc | rfl
    · exact hno c hc
    · rfl

/-- C5 amended, evaluated with two devices present on the session that has input device
1 (handle 5) and output device 0 (handle 7) open.  Index -3 returns nil from both
methods after closing: the input side unprepares both pool buffers and closes handle 5,
the output side sends the sixteen all-notes-off words and closes handle 7, and neither
queries the device count.  Index 2 is rejected by both with `MMSYSERR_BADDEVICEID`
after the close and the count query. -/
theorem open_device_index_check_witness :
    (openMidiInDevice okDriver bothSession [] (-3) =
      ({ bothSession with MidiInDevice := -1, hMidiIn := 0 },
       [OsCall.MidiInUnprepareHeader 5 0, OsCall.MidiInUnprepareHeader 5 1,
        OsCall.MidiInClose 5],
       none)) ∧
    (openMidiOutDevice okDriver bothSession [] (-3) =
      ({ bothSession with MidiOutDevice := -1, hMidiOut := 0 },
       (sendAllNoteOff okDriver { bothSession with MidiOutDevice := -1 } []).2.1 ++
         [OsCall.MidiOutClose 7],
       none)) ∧
    ((openMidiOutDevice okDriver bothSession [] (-3)).2.1 =
      allNoteOffWords 7 ++ [OsCall.MidiOutClose 7]) ∧
    (∃ extra, (openMidiOutDevice okDriver bothSession [] (-3)).2.1 = [] ++ extra ∧
      ∀ c ∈ extra, isOpenCall c = false ∧ isCountQuery c = false) ∧
    ((openMidiInDevice okDriver bothSession [] 2).2.2 =
        some (GoError.MidiInError MMSYSERR_BADDEVICEID) ∧
      (openMidiInDevice okDriver bothSession [] 2).1 =
        { bothSession with MidiInDevice := -1, hMidiIn := 0 } ∧
      (openMidiInDevice okDriver bothSession [] 2).2.1 =
        [OsCall.MidiInUnprepareHeader 5 0, OsCall.MidiInUnprepareHeader 5 1,
         OsCall.MidiInClose 5, OsCall.MidiInGetNumDevs]) ∧
    ((openMidiOutDevice okDriver bothSession [] 2).2.2 =
        some (GoError.MidiOutError MMSYSERR_BADDEVICEID) ∧
      (openMidiOutDevice okDriver bothSession [] 2).1 =
        { bothSession with MidiOutDevice := -1, hMidiOut := 0 }) :=
  ⟨((open_device_index_check okDriver bothSession [] (-3)).1 (by decide)).2.2.2.2.1,
   ((open_device_index_check okDriver bothSession [] (-3)).1 (by decide)).2.2.2.2.2.1,
   (congrArg (fun r => r.2.1)
      ((open_device_index_check okDriver bothSession [] (-3)).1 (by decide)).2.2.2.2.2.1).trans
    (by rw [sendAllNoteOff_eq_sendWords]; rfl),
   ((open_device_index_check okDriver bothSession [] (-3)).1 (by decide)).2.2.2.2.2.2.2,
   ⟨((open_device_index_check okDriver bothSession [] 2).2.1 2 (by decide) rfl (by decide)).1,
    ((open_device_index_check okDriver bothSession [] 2).2.1 2 (by decide) rfl
      (by decide)).2.2.1,
    ((open_device_index_check okDriver bothSession [] 2).2.1 2 (by decide) rfl
      (by decide)).2.2.2.trans (by rw [closeMidiInDevice_eq]; rfl)⟩,
   ⟨((open_device_index_check okDriver bothSession [] 2).2.2 2 (by decide) rfl (by decide)).1,
    ((open_device_index_check okDriver bothSession [] 2).2.2 2 (by decide) rfl
      (by decide)).2.2.1⟩⟩

/-! ## Rollback of a failed `openMidiInDevice` -/

/-- C7, evaluated on the code: opening input device 0 with a pool of two buffers on a
driver that rejects `MidiInPrepareHeader` for buffer 1.  The device open succeeds, buffer
0 is prepared and added, the prepare of buffer 1 fails; the code then closes the device
and returns the failure with device id -1 and a null handle, but the log holds no
`MidiInUnprepareHeader` call: buffer 0 stays prepared.  The same happens when
`MidiInAddBuffer` for buffer 0 fails. -/
theorem openMidiInDevice_rollback_skips_unprepare :
    (openMidiInDevice prepareFailDriver idleSession [] 0).2.1 =
      [OsCall.MidiInGetNumDevs, OsCall.MidiInOpen 0 1 0 0x10020,
       OsCall.MidiInPrepareHeader 7 0, OsCall.MidiInAddBuffer 7 0,
       OsCall.MidiInPrepareHeader 7 1, OsCall.MidiInClose 7] ∧
    (openMidiInDevice prepareFailDriver idleSession [] 0).2.2 = some (GoError.MidiInError 7) ∧
    (openMidiInDevice prepareFailDriver idleSession [] 0).1.MidiInDevice = -1 ∧
    (openMidiInDevice prepareFailDriver idleSession [] 0).1.hMidiIn = 0 ∧
    (openMidiInDevice prepareFailDriver idleSession [] 0).2.1.filter isInUnprepare = [] ∧
    (openMidiInDevice addBufferFailDriver idleSession [] 0).2.1 =
      [OsCall.MidiInGetNumDevs, OsCall.MidiInOpen 0 1 0 0x10020,
       OsCall.MidiInPrepareHeader 7 0, OsCall.MidiInAddBuffer 7 0, OsCall.MidiInClose 7] ∧
    (openMidiInDevice addBufferFailDriver idleSession [] 0).2.2 = some (GoError.MidiInError 7) := by
  refine ⟨?_, ?_, ?_, ?_, ?_, ?_, ?_⟩ <;> rfl

/-- The sibling failure path of `openMidiInDevice`: when `MidiInStart` fails, the code
calls `closeMidiInDevice`, which unprepares both pool buffers before closing. -/
theorem openMidiInDevice_start_failure_unprepares :
    (openMidiInDevice startFailDriver idleSession [] 0).2.1 =
      [OsCall.MidiInGetNumDevs, OsCall.MidiInOpen 0 1 0 0x10020,
       OsCall.MidiInPrepareHeader 7 0, OsCall.MidiInAddBuffer 7 0,
       OsCall.MidiInPrepareHeader 7 1, OsCall.MidiInAddBuffer 7 1,
       OsCall.MidiInStart 7,
       OsCall.MidiInUnprepareHeader 7 0, OsCall.MidiInUnprepareHeader 7 1,
       OsCall.MidiInClose 7] ∧
    (openMidiInDevice startFailDriver idleSession [] 0).2.2 = some (GoError.MidiInError 1) := by
  constructor <;> rfl

/-! ## Session invariant -/

theorem SessionInv_of_in (app app1 : application) (hinv : SessionInv app)
    (hin : app1.hMidiIn ≠ 0 ↔ 0 ≤ app1.MidiInDevice)
    (h1 : app1.hMidiOut = app.hMidiOut) (h2 : app1.MidiOutDevice = app.MidiOutDevice) :
    SessionInv app1 := by
  unfold SessionInv at *
  rw [h1, h2]
  exact ⟨hin, hinv.2⟩

theorem SessionInv_of_out (app app1 : application) (hinv : SessionInv app)
    (hout : app1.hMidiOut ≠ 0 ↔ 0 ≤ app1.MidiOutDevice)
    (h1 : app1.hMidiIn = app.hMidiIn) (h2 : app1.MidiInDevice = app.MidiInDevice) :
    SessionInv app1 := by
  unfold SessionInv at *
  rw [h1, h2]
  exact ⟨hinv.1, hout⟩

theorem closeMidiInDevice_inv (os : Winmm) (app : application) (log : List OsCall)
    (hinv : SessionInv app) : SessionInv (closeMidiInDevice os app log).1 := by
  obtain ⟨h1, h2, h3, h4⟩ := closeMidiInDevice_fields os app log
  exact SessionInv_of_in app _ hinv (by rw [h1, h2]; decide) h3 h4

theorem closeMidiOutDevice_inv (os : Winmm) (app : application) (log : List OsCall)
    (hinv : SessionInv app) : SessionInv (closeMidiOutDevice os app log).1 := by
  obtain ⟨h1, h2, h3, h4⟩ := closeMidiOutDevice_fields os app log
  exact SessionInv_of_out app _ hinv (by rw [h1, h2]; decide) h3 h4

theorem openMidiInDeviceLoop_fields (os : Winmm) (hMidiIn : Nat) (l : List Nat) :
    ∀ (app : application) (log : List OsCall),
      (openMidiInDeviceLoop os hMidiIn l app log).1.hMidiIn = app.hMidiIn ∧
      (openMidiInDeviceLoop os hMidiIn l app log).1.MidiInDevice = app.MidiInDevice ∧
      (openMidiInDeviceLoop os hMidiIn l app log).1.hMidiOut = app.hMidiOut ∧
      (openMidiInDeviceLoop os hMidiIn l app log).1.MidiOutDevice = app.MidiOutDevice := by
  induction l with
  | nil => intro app log; simp [openMidiInDeviceLoop]
  | cons i rest ih =>
    intro app log
    unfold openMidiInDeviceLoop
    simp only
    split
    · simp
    · split
      · simp
      · exact ih _ _

theorem setMidiOutInstrument_fields (os : Winmm) (app : application) (log : List OsCall)
    (p : Nat) :
    (setMidiOutInstrument os app log p).1.hMidiIn = app.hMidiIn ∧
    (setMidiOutInstrument os app log p).1.MidiInDevice = app.MidiInDevice ∧
    (setMidiOutInstrument os app log p).1.hMidiOut = app.hMidiOut ∧
    (setMidiOutInstrument os app log p).1.MidiOutDevice = app.MidiOutDevice := by
  unfold setMidiOutInstrument
  simp only
  split
  · simp
  · split
    · simp
    · split <;> simp

theorem setMidiOutInstrument_inv (os : Winmm) (app : application) (log : List OsCall)
    (p : Nat) (hinv : SessionInv app) : SessionInv (setMidiOutInstrument os app log p).1 := by
  obtain ⟨h1, h2, h3, h4⟩ := setMidiOutInstrument_fields os app log p
  unfold SessionInv at *
  rw [h1, h2, h3, h4]
  exact hinv

theorem sendMidiOutMessage_app (os : Winmm) (app : application) (log : List OsCall)
    (note : midiMessage) : (sendMidiOutMessage os app log note).1 = app := by
  unfold sendMidiOutMessage
  simp only [shortMsg]
  repeat' split
  all_goals rfl

theorem openMidiInDevice_inv (os : Winmm)
    (hopen : ∀ (l : List OsCall) (c : OsCall), isOpenCall c = true →
      os.status (l ++ [c]) = none → os.handle (l ++ [c]) ≠ 0)
    (app : application) (log : List OsCall) (d : Int) (hinv : SessionInv app) :
    SessionInv (openMidiInDevice os app log d).1 := by
  have hclosed := closeMidiInDevice_inv os app log hinv
  obtain ⟨c1, c2, c3, c4⟩ := closeMidiInDevice_fields os app log
  unfold openMidiInDevice
  simp only
  split
  · exact hclosed
  · rename_i hd
    split
    · exact hclosed
    · split
      · exact hclosed
      · rename_i hst
        have hh := hopen _ (OsCall.MidiInOpen _ _ _ _) rfl hst
        split
        · -- the loop returned early: only `sysexBuffer` changed
          obtain ⟨l1, l2, l3, l4⟩ := openMidiInDeviceLoop_fields os
            (os.handle ((closeMidiInDevice os app log).2 ++ [OsCall.MidiInGetNumDevs] ++
              [OsCall.MidiInOpen (uint32 d) (closeMidiInDevice os app log).1.hWnd 0
                (CALLBACK_WINDOW ||| MIDI_IO_STATUS)]))
            (List.range (closeMidiInDevice os app log).1.sysexBuffer.length)
            (closeMidiInDevice os app log).1
            ((closeMidiInDevice os app log).2 ++ [OsCall.MidiInGetNumDevs] ++
              [OsCall.MidiInOpen (uint32 d) (closeMidiInDevice os app log).1.hWnd 0
                (CALLBACK_WINDOW ||| MIDI_IO_STATUS)])
          unfold SessionInv at hclosed ⊢
          rw [l1, l2, l3, l4]
          exact hclosed
        · obtain ⟨l1, l2, l3, l4⟩ := openMidiInDeviceLoop_fields os
            (os.handle ((closeMidiInDevice os app log).2 ++ [OsCall.MidiInGetNumDevs] ++
              [OsCall.MidiInOpen (uint32 d) (closeMidiInDevice os app log).1.hWnd 0
                (CALLBACK_WINDOW ||| MIDI_IO_STATUS)]))
            (List.range (closeMidiInDevice os app log).1.sysexBuffer.length)
            (closeMidiInDevice os app log).1
            ((closeMidiInDevice os app log).2 ++ [OsCall.MidiInGetNumDevs] ++
              [OsCall.MidiInOpen (uint32 d) (closeMidiInDevice os app log).1.hWnd 0
                (CALLBACK_WINDOW ||| MIDI_IO_STATUS)])
          split
          · apply closeMidiInDevice_inv
            refine SessionInv_of_in app _ hinv ?_ (by simp only; rw [l3, c3])
              (by simp only; rw [l4, c4])
            simp only
            exact ⟨fun _ => by omega, fun _ => hh⟩
          · refine SessionInv_of_in app _ hinv ?_ (by simp only; rw [l3, c3])
              (by simp only; rw [l4, c4])
            simp only
            exact ⟨fun _ => by omega, fun _ => hh⟩

theorem openMidiOutDevice_inv (os : Winmm)
    (hopen : ∀ (l : List OsCall) (c : OsCall), isOpenCall c = true →
      os.status (l ++ [c]) = none → os.handle (l ++ [c]) ≠ 0)
    (app : application) (log : List OsCall) (d : Int) (hinv : SessionInv app) :
    SessionInv (openMidiOutDevice os app log d).1 := by
  have hclosed := closeMidiOutDevice_inv os app log hinv
  obtain ⟨c1, c2, c3, c4⟩ := closeMidiOutDevice_fields os app log
  unfold openMidiOutDevice
  simp only
  split
  · exact hclosed
  · rename_i hd
    split
    · exact hclosed
    · split
      · exact hclosed
      · rename_i hst
        have hh := hopen _ (OsCall.MidiOutOpen _ _ _ _) rfl hst
        apply setMidiOutInstrument_inv
        refine SessionInv_of_out app _ hinv ?_ (by simp only; rw [c3]) (by simp only; rw [c4])
        simp only
        exact ⟨fun _ => by omega, fun _ => hh⟩

/-- C8: the session invariant (input handle non-null iff input device id `≥ 0`, output
handle non-null iff output device id `≥ 0`) is preserved by every method.  For every
driver whose successful device open returns a non-null handle, every session state
satisfying the invariant and every log of earlier calls, the state after
`openMidiInDevice`, `openMidiOutDevice`, `closeMidiInDevice`, `closeMidiOutDevice`,
`setMidiOutInstrument`, `setMidiOutTranspose`, `sendMidiOutMessage` or `sendAllNoteOff`
satisfies it again, whatever the driver answers. -/
theorem session_invariant_preserved (os : Winmm)
    (hopen : ∀ (l : List OsCall) (c : OsCall), isOpenCall c = true →
      os.status (l ++ [c]) = none → os.handle (l ++ [c]) ≠ 0)
    (app : application) (hinv : SessionInv app) (log : List OsCall)
    (d : Int) (p : Nat) (t : Int) (note : midiMessage) :
    SessionInv (openMidiInDevice os app log d).1 ∧
    SessionInv (openMidiOutDevice os app log d).1 ∧
    SessionInv (closeMidiInDevice os app log).1 ∧
    SessionInv (closeMidiOutDevice os app log).1 ∧
    SessionInv (setMidiOutInstrument os app log p).1 ∧
    SessionInv (setMidiOutTranspose app t) ∧
    SessionInv (sendMidiOutMessage os app log note).1 ∧
    SessionInv (sendAllNoteOff os app log).1 := by
  refine ⟨openMidiInDevice_inv os hopen app log d hinv,
    openMidiOutDevice_inv os hopen app log d hinv,
    closeMidiInDevice_inv os app log hinv,
    closeMidiOutDevice_inv os app log hinv,
    setMidiOutInstrument_inv os app log p hinv, hinv, ?_, hinv⟩
  rw [sendMidiOutMessage_app]
  exact hinv

/-- C8, evaluated on the session with output device 0 open and a driver that hands out
handle 7. -/
theorem session_invariant_preserved_witness :
    SessionInv (outSession 0) ∧
    SessionInv (openMidiInDevice okDriver (outSession 0) [] 1).1 ∧
    SessionInv (openMidiOutDevice okDriver (outSession 0) [] 1).1 ∧
    SessionInv (closeMidiInDevice okDriver (outSession 0) []).1 ∧
    SessionInv (closeMidiOutDevice okDriver (outSession 0) []).1 ∧
    SessionInv (setMidiOutInstrument okDriver (outSession 0) [] 5).1 ∧
    SessionInv (setMidiOutTranspose (outSession 0) 3) ∧
    SessionInv (sendMidiOutMessage okDriver (outSession 0) [] { Msg := [0x90, 60, 100] }).1 ∧
    SessionInv (sendAllNoteOff okDriver (outSession 0) []).1 :=
  ⟨by decide,
   session_invariant_preserved okDriver (fun _ _ _ _ => Nat.succ_ne_zero 6) (outSession 0) (by decide)
     [] 1 5 3 { Msg := [0x90, 60, 100] }⟩

end Midi2ffxiv
